import Mathlib

/-! Shallow embedding of the AndroidForensicsTool core extractor
(src/core_extractor.py) and proofs about its behaviour.

Files and payloads are byte lists; external effects (the adb subprocess
calls, the sqlite library, zlib, the filesystem) are modelled as explicit
environment values handed to each function, so that every definition below
mirrors the control flow of the corresponding Python function over those
outcomes. -/

namespace AndroidForensics

/-- A file content or payload: a list of byte values. -/
abbrev Bytes := List Nat

/-- The 15-byte Python literal that line 342 of src/core_extractor.py
compares against: the ASCII bytes of the string ANDROID BACKUP followed by
a newline character. -/
def MAGIC_LITERAL : Bytes := [65, 78, 68, 82, 79, 73, 68, 32, 66, 65, 67, 75, 85, 80, 10]

/-- The fixed 24-byte signature the spec describes: the same ASCII string
padded with zero bytes to a 24-byte field. -/
def SIG24 : Bytes := MAGIC_LITERAL ++ [0, 0, 0, 0, 0, 0, 0, 0, 0]

/-- Little-endian unsigned decoding of a byte sequence, as in the Python
int.from_bytes call with byteorder little; an empty sequence decodes to 0. -/
def fromBytesLE (bs : Bytes) : Nat := bs.foldr (fun b acc => b + 256 * acc) 0

/-- Outcome of parse_backup_file on the bytes of an existing backup file.
The ok constructor carries the version, the compression flag and the tar
bytes the function then writes to backup_extracted/backup.tar. -/
inductive ParseResult where
  | magicMismatch : ParseResult
  | decompressFailed : ParseResult
  | ok (version compression : Nat) (tar : Bytes) : ParseResult
deriving DecidableEq

/-- Lines 354-360 of src/core_extractor.py: the payload is run through
zlib.decompress only when the compression field equals 1; every other
value leaves the bytes untouched. zlib is an external library and is
passed in as a fallible function. -/
def decodePayload (decompress : Bytes → Option Bytes) (compression : Nat)
    (tar_data : Bytes) : Option Bytes :=
  if compression = 1 then decompress tar_data else some tar_data

/-- parse_backup_file (lines 321-369 of src/core_extractor.py) on the byte
content of an existing file: f.read(24) yields the first 24 bytes of the
file (fewer at end of file) and the result is compared with the 15-byte
literal MAGIC_LITERAL; the version and compression fields are then decoded
little-endian from the next two 4-byte reads (offsets 24 and 28) and the
remainder of the file is the payload. -/
def parse_backup_file (decompress : Bytes → Option Bytes) (file : Bytes) : ParseResult :=
  let magic := file.take 24
  let version := fromBytesLE ((file.drop 24).take 4)
  let compression := fromBytesLE ((file.drop 28).take 4)
  let tar_data := file.drop 32
  if magic = MAGIC_LITERAL then
    match decodePayload decompress compression tar_data with
    | some tar => ParseResult.ok version compression tar
    | none => ParseResult.decompressFailed
  else ParseResult.magicMismatch

/-- Re-encoding of a decoded payload with the original compression flag:
deflate-compress when the flag is 1, identity otherwise. The compressor is
external and passed in. -/
def reencode (compress : Bytes → Bytes) (compression : Nat) (payload : Bytes) : Bytes :=
  if compression = 1 then compress payload else payload

/-- The 4-byte little-endian encoding of 1, used as a version field. -/
def VER1 : Bytes := [1, 0, 0, 0]

/-- The 4-byte little-endian encoding of 0, used as a compression field. -/
def FLAG0 : Bytes := [0, 0, 0, 0]

/-- The 4-byte little-endian encoding of 2: a compression flag value that
is neither 0 nor 1. -/
def FLAG2 : Bytes := [2, 0, 0, 0]

/-- A container file laid out exactly as the spec prescribes: the 24-byte
signature, version 1, compression flag 0, then a raw payload. -/
def sample_container : Bytes := SIG24 ++ VER1 ++ FLAG0 ++ [116, 97, 114]

/-- A container with the 24-byte signature, version 1, and the unsupported
compression flag value 2 ahead of a one-byte payload. -/
def sample_flag2_container : Bytes := SIG24 ++ VER1 ++ FLAG2 ++ [99]

/-- Well-formedness of a raw (flag 0) container in the sense of the spec
wording, stated for comparison with the code: the first 24 bytes equal the
fixed signature and the compression field decodes to 0. -/
def spec_wellformed_raw (file : Bytes) : Prop :=
  file.take 24 = SIG24 ∧ fromBytesLE ((file.drop 28).take 4) = 0

/-! Backup orchestrator: create_backup (lines 263-319). The external event
is the outcome of process.communicate under the 120 second timeout,
together with the state of the destination file afterwards. -/

/-- Outcome of waiting for the adb backup process: it either finished
within 120 seconds (carrying the destination file size, if the file was
created, and the stderr text), or the wait timed out. -/
inductive CommOutcome where
  | finished (destSize : Option Nat) (stderr : String) : CommOutcome
  | timedOut : CommOutcome
deriving DecidableEq

/-- The distinct messages create_backup can return. -/
inductive CreateMsg where
  | createdOk (size : Nat) : CreateMsg
  | tooSmallNotApproved : CreateMsg
  | backupFailed (emsg : String) : CreateMsg
  | timedOutNotApproved : CreateMsg
deriving DecidableEq

/-- The value create_backup returns, plus whether process.kill ran. -/
structure CreateResult where
  success : Bool
  msg : CreateMsg
  processKilled : Bool
deriving DecidableEq

/-- create_backup (lines 263-319 of src/core_extractor.py): after
communicate returns, success requires the destination file to exist with
size strictly greater than 24 bytes; a file at or under 24 bytes yields
the too-small message, a missing file the generic failure message carrying
stderr when non-empty; a TimeoutExpired triggers process.kill and the
distinct timed-out, likely-not-approved message. -/
def create_backup (comm : CommOutcome) : CreateResult :=
  match comm with
  | CommOutcome.finished (some size) _ =>
      if 24 < size then ⟨true, CreateMsg.createdOk size, false⟩
      else ⟨false, CreateMsg.tooSmallNotApproved, false⟩
  | CommOutcome.finished none stderr =>
      ⟨false, CreateMsg.backupFailed
        (if stderr = "" then "Backup file was not created" else stderr), false⟩
  | CommOutcome.timedOut => ⟨false, CreateMsg.timedOutNotApproved, true⟩

/-- Spec-side success condition for create_backup: after the wait the
destination file exists and its size strictly exceeds the 24-byte
container-header size. -/
def destExceedsHeader (comm : CommOutcome) : Bool :=
  match comm with
  | CommOutcome.finished (some size) _ => decide (24 < size)
  | _ => false

/-! Verification: verify_database (lines 207-250). The sqlite database is
modelled as its list of tables, each with its row count; the source lists
the table names from sqlite_master and then counts rows per expected
table, 0 when the table is absent. -/

/-- The verification dictionary verify_database builds for a readable
database file. -/
structure Verification where
  file_exists : Bool
  tables_found : List String
  expected_tables : List String
  tables_present : Bool
  row_counts : List (String × Nat)
deriving DecidableEq

/-- The row count a COUNT query reports for a table of the database. -/
def rowCount (dbTables : List (String × Nat)) (t : String) : Nat :=
  match dbTables.lookup t with
  | some n => n
  | none => 0

/-- verify_database (lines 207-250 of src/core_extractor.py) on a readable
database: tables_present is true exactly when every expected table occurs
among the tables found, and row_counts maps each expected table to its
count, or to 0 when it is absent. Returns the pair (is_valid,
verification) the source returns. -/
def verify_database (dbTables : List (String × Nat)) (expected : List String) :
    Bool × Verification :=
  let tables := dbTables.map Prod.fst
  let verification : Verification :=
    { file_exists := true
      tables_found := tables
      expected_tables := expected
      tables_present := expected.all (fun t => tables.contains t)
      row_counts := expected.map (fun t =>
        (t, if tables.contains t then rowCount dbTables t else 0)) }
  (verification.file_exists && verification.tables_present, verification)

/-! Direct puller: extract_database (lines 178-205) and the per-artifact
candidate-path loop of extract_all_data (lines 785-830). The adb pull
outcome for a remote path is modelled as an optional size: some size when
the pull command exits 0 and the local file exists with that size, none
for a failed, timed-out or erroring pull. -/

/-- The class-level DATABASE_PATHS table (lines 22-45 of
src/core_extractor.py): candidate absolute device paths per artifact
type, in declared order. -/
def DATABASE_PATHS : List (String × List String) :=
  [("sms",
    ["/data/data/com.android.providers.telephony/databases/mmssms.db",
     "/data/data/com.android.mms/databases/mmssms.db"]),
   ("calls",
    ["/data/data/com.android.providers.contacts/databases/calllog.db",
     "/data/data/com.android.providers.contacts/databases/contacts2.db"]),
   ("chrome",
    ["/data/data/com.android.chrome/app_chrome/Default/History",
     "/data/data/com.chrome.browser/app_chrome/Default/History"]),
   ("contacts",
    ["/data/data/com.android.providers.contacts/databases/contacts2.db"]),
   ("wifi",
    ["/data/misc/wifi/WifiConfigStore.xml",
     "/data/misc/wifi/wpa_supplicant.conf"]),
   ("packages",
    ["/data/system/packages.xml"])]

/-- The candidate device paths of one artifact type. -/
def dbPaths (dataType : String) : List String :=
  (DATABASE_PATHS.lookup dataType).getD []

/-- Environment of a direct-strategy run: the outcomes of the ADB
availability check, the device check, the root attempt, and of each
possible adb pull (remote path to created local file size). -/
structure PullEnv where
  adb_ok : Bool
  device_ok : Bool
  root_ok : Bool
  pull : String → Option Nat

/-- extract_database (lines 178-205 of src/core_extractor.py): success
requires the pull command to exit 0, the local file to exist, and its
size to be strictly positive; on success the local evidence path is
returned. -/
def extract_database (env : PullEnv) (remote_path : String) (local_name : String) :
    Bool × Option String :=
  match env.pull remote_path with
  | some size => if 0 < size then (true, some local_name) else (false, none)
  | none => (false, none)

/-- Whether the pull of one remote path succeeds with a non-empty file. -/
def pullSucceeds (env : PullEnv) (remote : String) : Bool :=
  match env.pull remote with
  | some size => decide (0 < size)
  | none => false

/-- A record of one acquired artifact: the local evidence path and the
remote device path it came from (the provenance the result stores). -/
structure AcquiredFile where
  path : String
  remote_path : String
deriving DecidableEq

/-- The candidate-path loop of extract_all_data (lines 789-817): the
paths are tried in order and the loop breaks at the first successful
extract_database call, recording that remote path. -/
def pull_first (env : PullEnv) : List String → String → Option AcquiredFile
  | [], _ => none
  | p :: rest, local_name =>
    match extract_database env p local_name with
    | (true, some lp) => some ⟨lp, p⟩
    | _ => pull_first env rest local_name

/-- The property that a remote path is the first one in a candidate list
whose pull succeeds: every earlier candidate fails and this one succeeds. -/
def isFirstSuccess (env : PullEnv) : List String → String → Prop
  | [], _ => False
  | q :: rest, p => if pullSucceeds env q then p = q else isFirstSuccess env rest p

/-! Shell dump collector: extract_system_dump (lines 613-646). Each of the
six fixed commands runs under a 15 second timeout with no per-command
exception handler: a completed run (any exit code) has its stdout written
to the designated file, while a TimeoutExpired propagates to the outer
handler, which returns a failure dictionary. -/

/-- Outcome of one subprocess.run shell command: completion with an exit
code, stdout and stderr (subprocess.run does not raise on a non-zero
exit), or expiry of the timeout, which raises TimeoutExpired. -/
inductive CmdOutcome where
  | done (returncode : Nat) (stdout stderr : String) : CmdOutcome
  | timedOut : CmdOutcome
deriving DecidableEq

/-- Whether the outcome is the raised timeout. -/
def CmdOutcome.isTimedOut : CmdOutcome → Bool
  | CmdOutcome.timedOut => true
  | _ => false

/-- The fixed table of output file names and shell commands of
extract_system_dump (lines 620-627 of src/core_extractor.py). -/
def SYSTEM_DUMP_COMMANDS : List (String × String) :=
  [("packages_list.txt", "pm list packages -f -3"),
   ("system_props.txt", "getprop"),
   ("battery_stats.txt", "dumpsys battery"),
   ("network_info.txt", "ip address show"),
   ("usagestats.txt", "dumpsys usagestats"),
   ("permissions.txt", "pm list permissions -g -f")]

/-- The result dictionary of a collector: its success flag, the files it
wrote with their content, and the command count its message reports. -/
structure DumpResult where
  success : Bool
  written : List (String × String)
  count : Nat
deriving DecidableEq

/-- The command loop of extract_system_dump: each completed command has
its stdout written to its file and increments the counter; a timeout
leaves the just-opened file empty and aborts the loop (the exception
escapes to the outer handler). Returns the files written, the counter
and whether the loop completed without an exception. -/
def run_dump_commands (env : String → CmdOutcome) :
    List (String × String) → List (String × String) × Nat × Bool
  | [] => ([], 0, true)
  | (filename, cmd) :: rest =>
    match env cmd with
    | CmdOutcome.done _ out _ =>
      let r := run_dump_commands env rest
      ((filename, out) :: r.1, r.2.1 + 1, r.2.2)
    | CmdOutcome.timedOut => ([(filename, "")], 0, false)

/-- extract_system_dump (lines 613-646 of src/core_extractor.py): runs the
fixed command table; if every command completes it returns success with
the count of commands run, and if any raises the outer handler returns a
failure dictionary (with no count). -/
def extract_system_dump (env : String → CmdOutcome) : DumpResult :=
  let r := run_dump_commands env SYSTEM_DUMP_COMMANDS
  if r.2.2 then ⟨true, r.1, r.2.1⟩ else ⟨false, r.1, 0⟩

/-! Content query collector: extract_content_query (lines 567-611). Each
query runs under its own try handler, so per-query failures never escape:
a query with exit 0 and non-empty stdout has the stdout written, one with
stderr has an ERROR line written, an exception has its text written. -/

/-- Outcome of one content query: a completed subprocess.run, or an
exception raised by it (caught by the per-query handler). -/
inductive QueryOutcome where
  | done (returncode : Nat) (stdout stderr : String) : QueryOutcome
  | exn (msg : String) : QueryOutcome
deriving DecidableEq

/-- The fixed query table of extract_content_query (lines 575-581 of
src/core_extractor.py). -/
def CONTENT_QUERIES : List (String × String) :=
  [("sms.txt", "content query --uri content://sms/"),
   ("calls.txt", "content query --uri content://call_log/calls"),
   ("contacts.txt",
    "content query --uri content://contacts/phones/ --projection display_name:number:last_time_contacted"),
   ("calendar.txt",
    "content query --uri content://com.android.calendar/events --projection title:dtstart:eventLocation"),
   ("dictionary.txt",
    "content query --uri content://user_dictionary/words --projection word:frequency")]

/-- The text written for one query outcome: stdout on a clean non-empty
result, an ERROR line when only stderr is present, the exception text for
a raised exception, nothing otherwise. -/
def content_file_text (o : QueryOutcome) : String :=
  match o with
  | QueryOutcome.done rc out err =>
      if rc = 0 ∧ out ≠ "" then out else if err ≠ "" then "ERROR: " ++ err else ""
  | QueryOutcome.exn m => m

/-- extract_content_query (lines 567-611 of src/core_extractor.py): every
per-query failure is caught inside the loop, so the collector itself
always returns success, with a message counting the attempted queries. -/
def extract_content_query (env : String → QueryOutcome) : DumpResult :=
  ⟨true, CONTENT_QUERIES.map (fun p => (p.1, content_file_text (env p.2))),
   CONTENT_QUERIES.length⟩

/-- extract_shared_storage (lines 648-710 of src/core_extractor.py),
projected to what the aggregator consumes: it returns success with the
count of files pulled unless an exception escapes its enumeration loop
(outcome none), in which case it returns a failure dictionary. -/
def extract_shared_storage (outcome : Option Nat) : Bool × Nat :=
  match outcome with
  | some n => (true, n)
  | none => (false, 0)

/-! The two aggregators: extract_all_data (lines 712-844, the direct
strategy) and extract_via_backup (lines 425-565, the backup strategy).
Both return a result dictionary whose success flag is set at the end; the
warnings, errors and verification entries the source also accumulates do
not feed into the success flag or the extracted-files map and are
projected away here. -/

/-- The extraction task table of extract_all_data (lines 776-783):
artifact type, canonical local name, expected tables. -/
def direct_tasks : List (String × String × List String) :=
  [("sms", "mmssms.db", ["sms"]),
   ("calls", "calllog.db", ["calls"]),
   ("contacts", "contacts2.db", ["contacts"]),
   ("chrome", "History", ["urls"]),
   ("wifi", "WifiConfigStore.xml", []),
   ("packages", "packages.xml", [])]

/-- The result record of a direct-strategy run: the success flag and the
extracted-files map (artifact type to acquired file). -/
structure AcquisitionResult where
  success : Bool
  extracted_files : List (String × AcquiredFile)
deriving DecidableEq

/-- extract_all_data (lines 712-844 of src/core_extractor.py): a failed
ADB check or device check returns immediately with success false and
nothing extracted; otherwise each task tries its candidate paths in order
via the pull loop, and at the end success is set exactly when the
extracted-files map is non-empty (lines 839-841). -/
def extract_all_data (env : PullEnv) : AcquisitionResult :=
  if !env.adb_ok then ⟨false, []⟩
  else if !env.device_ok then ⟨false, []⟩
  else
    let files := direct_tasks.filterMap (fun task =>
      (pull_first env (dbPaths task.1) task.2.1).map (fun af => (task.1, af)))
    ⟨!files.isEmpty, files⟩

/-- The extraction task table of extract_via_backup (lines 475-480). -/
def backup_tasks : List (String × String × List String) :=
  [("sms", "mmssms.db", ["sms"]),
   ("calls", "calllog.db", ["calls"]),
   ("contacts", "contacts2.db", ["contacts", "raw_contacts"]),
   ("chrome", "History", ["urls"])]

/-- Environment of a backup-strategy run: the check outcomes, the
communicate outcome of the combined backup, the bytes of the backup file
it produced, the external decompressor, the outcome of extract_from_backup
per artifact type (some local path on success), the shared-storage
outcome, and the per-command outcomes of the two collectors. -/
structure BackupEnv where
  adb_ok : Bool
  device_ok : Bool
  comm : CommOutcome
  backup_bytes : Bytes
  decompress : Bytes → Option Bytes
  locate : String → Option String
  shared : Option Nat
  dumpEnv : String → CmdOutcome
  queryEnv : String → QueryOutcome

/-- The result record of a backup-strategy run: the success flag and the
extracted-files map (artifact type to local path). -/
structure BackupRunResult where
  success : Bool
  extracted_files : List (String × String)
deriving DecidableEq

/-- extract_via_backup (lines 425-565 of src/core_extractor.py): a failed
ADB or device check returns immediately with success false and nothing
extracted. Otherwise the combined backup is requested; when it succeeds
and the container parses, each task is located in the tar (successes enter
the map). The shared-storage harvest, the system dump and the content
query collectors then run regardless, each entering the map when its own
success flag is true, and at the end success is set exactly when the
extracted-files map is non-empty (lines 560-562). -/
def extract_via_backup (env : BackupEnv) : BackupRunResult :=
  if !env.adb_ok then ⟨false, []⟩
  else if !env.device_ok then ⟨false, []⟩
  else
    let fromBackup :=
      if (create_backup env.comm).success then
        match parse_backup_file env.decompress env.backup_bytes with
        | ParseResult.ok _ _ _ =>
            backup_tasks.filterMap (fun task =>
              (env.locate task.1).map (fun p => (task.1, p)))
        | _ => []
      else []
    let withShared := fromBackup ++
      (if (extract_shared_storage env.shared).1 then [("shared_storage", "shared_storage")] else [])
    let withDump := withShared ++
      (if (extract_system_dump env.dumpEnv).success then [("system_dump", "system_dump")] else [])
    let withQuery := withDump ++
      (if (extract_content_query env.queryEnv).success then [("content_query", "content_query")] else [])
    ⟨!withQuery.isEmpty, withQuery⟩

/-! Concrete environments used by witnesses. -/

/-- A pull environment in which the ADB and device checks pass and, of the
two sms candidate paths, only the second yields a successful non-empty
pull. -/
def env_two_paths : PullEnv :=
  { adb_ok := true
    device_ok := true
    root_ok := false
    pull := fun r =>
      if r = "/data/data/com.android.mms/databases/mmssms.db" then some 5 else none }

/-- A shell environment in which every command completes with a non-zero
exit code, empty stdout and a denial on stderr. -/
def env_all_denied : String → CmdOutcome :=
  fun _ => CmdOutcome.done 1 "" "Permission denied"

/-- A shell environment in which every command expires its timeout. -/
def env_all_timeout : String → CmdOutcome :=
  fun _ => CmdOutcome.timedOut

/-! Theorems. -/

/-- Claim C10: parse_backup_file accepts the truncated 15-byte file that
consists of exactly the bytes of the magic literal: the 24-byte read
returns just those 15 bytes, which equal the literal, the version and
compression reads return nothing and decode to 0, and an empty inner
archive is the tar content persisted. -/
theorem parse_accepts_bare_magic :
    ∀ decompress, parse_backup_file decompress MAGIC_LITERAL = ParseResult.ok 0 0 [] :=
  fun _ => rfl

/-- Claim C1, evaluated at the failing input: a container whose first 24
bytes are the fixed 24-byte signature is reported as a magic mismatch,
while the bare 15-byte magic string is accepted; the comparison in the
source tests the 24 bytes read against the 15-byte literal, so no file
carrying header fields after a 24-byte signature can ever pass. -/
theorem parse_magic_check_bug :
    parse_backup_file (fun _ => none) sample_container = ParseResult.magicMismatch
    ∧ parse_backup_file (fun _ => none) MAGIC_LITERAL = ParseResult.ok 0 0 [] :=
  ⟨rfl, rfl⟩

/-- Claim C2, evaluated at the failing scenario: every container laid out
as the end-to-end scenario prescribes (24-byte signature, version 1,
compression 0, then any tar payload whatsoever) is rejected by
parse_backup_file with the magic mismatch, so the extraction step is
never reached. -/
theorem parse_rejects_wellformed_container :
    ∀ decompress payload,
      parse_backup_file decompress (SIG24 ++ VER1 ++ FLAG0 ++ payload) =
        ParseResult.magicMismatch :=
  fun _ _ => rfl

/-- Claim C3, evaluated at the failing input: a container with the
24-byte signature and compression flag 2 is rejected at the magic
comparison, never reaching any flag check; and the decompression dispatch
itself treats the flag value 2 as uncompressed, returning the payload
bytes unchanged rather than failing as unsupported. -/
theorem parse_flag_dispatch_no_validation :
    parse_backup_file (fun _ => none) sample_flag2_container = ParseResult.magicMismatch
    ∧ decodePayload (fun _ => none) 2 [99] = some [99] :=
  ⟨rfl, rfl⟩

/-- Any file parse_backup_file accepts is the bare 15-byte magic literal:
the 24-byte read equals the 15-byte literal only when the file has
exactly those 15 bytes. -/
theorem parse_ok_file_eq (decompress : Bytes → Option Bytes) (file : Bytes)
    (v c : Nat) (t : Bytes)
    (h : parse_backup_file decompress file = ParseResult.ok v c t) :
    file = MAGIC_LITERAL := by
  by_cases hm : file.take 24 = MAGIC_LITERAL
  · have hlen : (file.take 24).length = MAGIC_LITERAL.length := by rw [hm]
    have h15 : MAGIC_LITERAL.length = 15 := rfl
    rw [List.length_take, h15] at hlen
    have htake : file.take 24 = file := List.take_of_length_le (by omega)
    rw [htake] at hm
    exact hm
  · simp only [parse_backup_file, hm, if_false] at h
    exact absurd h (by simp)

/-- Claim C7, amended: for every file that parse_backup_file accepts,
re-encoding the decoded inner-archive bytes with the decoded compression
flag reproduces the payload bytes that followed the 32-byte header; the
only accepted files are the bare magic literal, whose flag decodes to 0
and whose payload is empty. -/
theorem parse_reencode_roundtrip :
    ∀ decompress compress file v c t,
      parse_backup_file decompress file = ParseResult.ok v c t →
      reencode compress c t = file.drop 32 := by
  intro dec comp file v c t h
  have hf := parse_ok_file_eq dec file v c t h
  subst hf
  have he : parse_backup_file dec MAGIC_LITERAL = ParseResult.ok 0 0 [] := rfl
  rw [he] at h
  injection h with h1 h2 h3
  subst h2
  subst h3
  rfl

/-- Witness for the amended round-trip claim at the one kind of input the
parser accepts: the bare magic literal, flag 0, empty payload. -/
theorem parse_reencode_roundtrip_witness :
    reencode (fun b => b) 0 [] = MAGIC_LITERAL.drop 32 :=
  parse_reencode_roundtrip (fun _ => none) (fun b => b) MAGIC_LITERAL 0 0 [] rfl

/-- Counterexample to claim C7 as stated: a container that is well-formed
in the sense of the spec (24-byte signature, compression flag 0) on which
parse_backup_file fails with the magic mismatch, so no decoded bytes
exist to re-encode. -/
theorem parse_roundtrip_counterexample :
    spec_wellformed_raw sample_container
    ∧ parse_backup_file (fun _ => none) sample_container = ParseResult.magicMismatch :=
  ⟨⟨rfl, rfl⟩, rfl⟩

/-- Claim C8: create_backup succeeds exactly when, after the bounded
wait, the destination file exists with size strictly above the 24-byte
container header; and on expiry of the timeout the backup process is
killed and the distinct likely-not-approved message is returned, not the
generic failure message. -/
theorem create_backup_success_spec :
    (∀ comm, (create_backup comm).success = destExceedsHeader comm)
    ∧ create_backup CommOutcome.timedOut =
        ⟨false, CreateMsg.timedOutNotApproved, true⟩ := by
  constructor
  · intro comm
    cases comm with
    | finished dest err =>
      cases dest with
      | none => rfl
      | some size =>
        by_cases h : 24 < size
        · simp [create_backup, destExceedsHeader, h]
        · simp [create_backup, destExceedsHeader, h]
    | timedOut => rfl
  · rfl

/-- Looking a present key up in the association list built by pairing
each element of a list with a computed value yields that value. -/
theorem lookup_map_pair {β : Type} (f : String → β) :
    ∀ (l : List String) (u : String), u ∈ l →
      (l.map (fun t => (t, f t))).lookup u = some (f u) := by
  intro l
  induction l with
  | nil => intro u hu; cases hu
  | cons a tl ih =>
    intro u hu
    by_cases h : u = a
    · subst h
      simp [List.lookup]
    · have hne : (u == a) = false := by simp [h]
      have hm : u ∈ tl := by
        cases hu with
        | head => exact absurd rfl h
        | tail _ htl => exact htl
      simp [List.lookup, hne, ih u hm]

/-- Claim C9: on a readable database missing an expected table,
verify_database reports tables_present false and a row count of 0 for the
missing table, while each present expected table keeps its correct row
count. -/
theorem verify_database_missing_table :
    ∀ (db : List (String × Nat)) (expected : List String) (t : String),
      t ∈ expected → (db.map Prod.fst).contains t = false →
      (verify_database db expected).2.tables_present = false
      ∧ (verify_database db expected).2.row_counts.lookup t = some 0
      ∧ (∀ u, u ∈ expected → (db.map Prod.fst).contains u = true →
          (verify_database db expected).2.row_counts.lookup u = some (rowCount db u)) := by
  intro db expected t ht hc
  have hve : (verify_database db expected).2.tables_present
      = expected.all (fun s => (db.map Prod.fst).contains s) := rfl
  have hrc : (verify_database db expected).2.row_counts
      = expected.map (fun s =>
          (s, if (db.map Prod.fst).contains s then rowCount db s else 0)) := rfl
  refine ⟨?_, ?_, ?_⟩
  · rw [hve, List.all_eq_false]
    exact ⟨t, ht, by rw [hc]; simp⟩
  · rw [hrc,
      lookup_map_pair (fun s => if (db.map Prod.fst).contains s then rowCount db s else 0)
        expected t ht, hc]
    rfl
  · intro u hu hcu
    rw [hrc,
      lookup_map_pair (fun s => if (db.map Prod.fst).contains s then rowCount db s else 0)
        expected u hu, hcu]
    rfl

/-- Witness for claim C9 at a one-table database asked for two tables. -/
theorem verify_database_missing_table_witness :
    (verify_database [("sms", 5)] ["sms", "threads"]).2.tables_present = false
    ∧ (verify_database [("sms", 5)] ["sms", "threads"]).2.row_counts.lookup "threads" = some 0
    ∧ (verify_database [("sms", 5)] ["sms", "threads"]).2.row_counts.lookup "sms" = some 5 := by
  have h := verify_database_missing_table [("sms", 5)] ["sms", "threads"] "threads"
    (by simp) (by rfl)
  exact ⟨h.1, h.2.1, h.2.2 "sms" (by simp) (by rfl)⟩

/-- The dump loop completes, with a counter equal to the number of
commands, when no command expires its timeout. -/
theorem run_dump_commands_all_done (env : String → CmdOutcome) :
    ∀ cmds : List (String × String),
      cmds.all (fun p => !(env p.2).isTimedOut) = true →
      (run_dump_commands env cmds).2.2 = true
      ∧ (run_dump_commands env cmds).2.1 = cmds.length := by
  intro cmds
  induction cmds with
  | nil => intro _; exact ⟨rfl, rfl⟩
  | cons p rest ih =>
    intro hall
    obtain ⟨fn, cmd⟩ := p
    rw [List.all_cons, Bool.and_eq_true] at hall
    obtain ⟨h1, h2⟩ := hall
    obtain ⟨ho, hcnt⟩ := ih h2
    cases hcmd : env cmd with
    | done rc out err =>
      constructor
      · simp [run_dump_commands, hcmd, ho]
      · simp [run_dump_commands, hcmd, hcnt]
    | timedOut =>
      rw [hcmd] at h1
      exact absurd h1 (by simp [CmdOutcome.isTimedOut])

/-- Claim C5, amended: extract_system_dump returns success carrying the
count of attempted commands for every run in which each command
completes, whatever its exit code or output; a timed-out command instead
raises and the collector returns failure. -/
theorem extract_system_dump_success_when_no_timeout :
    ∀ env : String → CmdOutcome,
      SYSTEM_DUMP_COMMANDS.all (fun p => !(env p.2).isTimedOut) = true →
      (extract_system_dump env).success = true
      ∧ (extract_system_dump env).count = SYSTEM_DUMP_COMMANDS.length := by
  intro env hall
  obtain ⟨ho, hcnt⟩ := run_dump_commands_all_done env SYSTEM_DUMP_COMMANDS hall
  constructor
  · simp [extract_system_dump, ho]
  · simp [extract_system_dump, ho, hcnt]

/-- Witness for the amended claim C5: every command completes with exit
code 1, empty stdout and a denial on stderr, and the collector still
returns success with the full command count. -/
theorem extract_system_dump_success_witness :
    (extract_system_dump env_all_denied).success = true
    ∧ (extract_system_dump env_all_denied).count = SYSTEM_DUMP_COMMANDS.length :=
  extract_system_dump_success_when_no_timeout env_all_denied rfl

/-- Counterexample to claim C5 as stated: when a command times out the
collector does not return success; the TimeoutExpired escapes to the
outer handler, which reports a collector-level failure. -/
theorem extract_system_dump_timeout_counterexample :
    (extract_system_dump env_all_timeout).success = false := rfl

/-- A list is non-empty exactly when its negated isEmpty flag is true. -/
theorem not_isEmpty_iff {α : Type} (l : List α) : (!l.isEmpty) = true ↔ l ≠ [] := by
  cases l <;> simp

/-- Claim C4: for both acquisition strategies the success flag of the
returned result is true exactly when the extracted-files map is
non-empty: the early aborts return false with an empty map, and the final
step sets success from the map being non-empty. -/
theorem acquisition_success_iff_nonempty :
    ∀ (envA : PullEnv) (envB : BackupEnv),
      ((extract_all_data envA).success = true ↔ (extract_all_data envA).extracted_files ≠ [])
      ∧ ((extract_via_backup envB).success = true ↔ (extract_via_backup envB).extracted_files ≠ []) := by
  intro envA envB
  constructor
  · obtain ⟨adb, dev, root, pull⟩ := envA
    cases adb <;> cases dev <;> simp [extract_all_data, not_isEmpty_iff]
  · obtain ⟨adb, dev, comm, bytes, dec, loc, shared, de, qe⟩ := envB
    cases adb <;> cases dev <;> simp [extract_via_backup, not_isEmpty_iff]

/-- extract_database returns success with the canonical local name
exactly when the pull of the remote path succeeds non-empty. -/
theorem extract_database_eq (env : PullEnv) (p ln : String) :
    extract_database env p ln =
      if pullSucceeds env p then (true, some ln) else (false, none) := by
  unfold extract_database pullSucceeds
  cases env.pull p with
  | none => rfl
  | some size => by_cases h : 0 < size <;> simp [h]

/-- The candidate-path loop records, as provenance, the first path of the
list whose pull succeeds. -/
theorem pull_first_first_success (env : PullEnv) :
    ∀ (paths : List String) (ln : String) (af : AcquiredFile),
      pull_first env paths ln = some af →
      isFirstSuccess env paths af.remote_path := by
  intro paths
  induction paths with
  | nil => intro ln af h; exact absurd h (by simp [pull_first])
  | cons p rest ih =>
    intro ln af h
    rw [pull_first, extract_database_eq] at h
    by_cases hp : pullSucceeds env p = true
    · rw [if_pos hp] at h
      simp at h
      unfold isFirstSuccess
      rw [if_pos hp, ← h]
    · rw [if_neg hp] at h
      simp at h
      unfold isFirstSuccess
      rw [if_neg hp]
      exact ih ln af h

/-- A successful lookup in the extracted-files map built over the task
table comes from a successful candidate-path loop for that artifact
type. -/
theorem lookup_filterMap_tasks (env : PullEnv) :
    ∀ (ts : List (String × String × List String)) (dt : String) (af : AcquiredFile),
      (ts.filterMap (fun task =>
        (pull_first env (dbPaths task.1) task.2.1).map (fun a => (task.1, a)))).lookup dt
        = some af →
      ∃ ln, pull_first env (dbPaths dt) ln = some af := by
  intro ts
  induction ts with
  | nil => intro dt af h; simp at h
  | cons tsk rest ih =>
    intro dt af h
    rw [List.filterMap_cons] at h
    cases hp : pull_first env (dbPaths tsk.1) tsk.2.1 with
    | none =>
      rw [hp] at h
      simp only [Option.map_none'] at h
      exact ih dt af h
    | some a =>
      rw [hp] at h
      simp only [Option.map_some'] at h
      by_cases hdt : dt = tsk.1
      · subst hdt
        simp [List.lookup] at h
        exact ⟨tsk.2.1, by rw [hp, h]⟩
      · have hne : (dt == tsk.1) = false := by simp [hdt]
        simp [List.lookup, hne] at h
        exact ih dt af h

/-- Claim C6: whenever the direct strategy records an acquired artifact,
the remote path it stores as provenance is the first candidate path of
that artifact type whose pull succeeded, every earlier candidate having
failed. -/
theorem extract_all_data_provenance :
    ∀ (env : PullEnv) (dt : String) (af : AcquiredFile),
      (extract_all_data env).extracted_files.lookup dt = some af →
      isFirstSuccess env (dbPaths dt) af.remote_path := by
  intro env dt af h
  obtain ⟨adb, dev, root, pull⟩ := env
  cases adb with
  | false => simp [extract_all_data] at h
  | true =>
    cases dev with
    | false => simp [extract_all_data] at h
    | true =>
      simp only [extract_all_data, Bool.not_true, Bool.false_eq_true, if_false] at h
      obtain ⟨ln, hpf⟩ := lookup_filterMap_tasks _ direct_tasks dt af h
      exact pull_first_first_success _ _ ln af hpf

/-- Witness for claim C6: with only the second sms candidate path
pullable, the recorded provenance is that second path, the first having
failed. -/
theorem extract_all_data_provenance_witness :
    isFirstSuccess env_two_paths (dbPaths "sms")
      "/data/data/com.android.mms/databases/mmssms.db" :=
  extract_all_data_provenance env_two_paths "sms"
    ⟨"mmssms.db", "/data/data/com.android.mms/databases/mmssms.db"⟩ (by rfl)

end AndroidForensics
